import Mathlib

/-!
Verification of the documentation build hook of `docs/conf.py`
(citrus-engine repository).

The module consists of declarative build-configuration data (module-level
dictionaries and scalars) plus one procedural hook, `run_doxygen`, that is
registered by `setup` on the `builder-inited` event.  The hook resolves
`os.path.join(app.srcdir, '..', 'Doxyfile')`, and if that file exists it
runs `subprocess.run(['doxygen', doxygen_config], cwd=app.srcdir,
capture_output=True, text=True)`, printing the captured stderr when the
exit status is non-zero and then printing "Doxygen completed"; if the file
does not exist it prints a single warning naming the path.

The embedding below models the filesystem (`pathExists`), process spawning
(`spawn`, which either completes with a `CompletedProcess` or fails to
locate the executable, in which case `subprocess.run` raises
`FileNotFoundError`), and the observable effects of the hook as a list of
events (printed lines and spawn attempts) together with an `Except` value
recording whether a Python exception escapes the hook.
-/

namespace CitrusDocs

/-- Two-argument core of `posixpath.join`: if `b` starts with the
separator the accumulated path is replaced by `b`; otherwise `b` is
appended, inserting a separator unless the accumulated path is empty or
already ends with one.  Characters are inspected through `String.data`
so that the definition stays amenable to proof. -/
def ospath_join2 (a b : String) : String :=
  if b.data.head? = some '/' then b
  else if a.data = [] ∨ a.data.getLast? = some '/' then a ++ b
  else a ++ "/" ++ b

/-- The configuration path resolved at line 53 of `conf.py`:
`os.path.join(app.srcdir, '..', 'Doxyfile')`. -/
def doxygen_config_path (srcdir : String) : String :=
  ospath_join2 (ospath_join2 srcdir "..") "Doxyfile"

/-- Result of `subprocess.run(..., capture_output=True, text=True)`:
a `CompletedProcess` with `returncode`, `stdout` and `stderr`. -/
structure CompletedProcess where
  returncode : Int
  stdout : String
  stderr : String
deriving DecidableEq, Repr

/-- Outcome of attempting to spawn the external tool: either the
executable is not on the execution path (Python raises
`FileNotFoundError` from inside `subprocess.run`) or the process runs to
completion. -/
inductive SpawnResult where
  | notFound
  | completed (result : CompletedProcess)
deriving DecidableEq, Repr

/-- Observable effects of the hook: lines written to the build log via
`print`, and subprocess spawn attempts with their argv and working
directory. -/
inductive Event where
  | printed (line : String)
  | spawned (argv : List String) (cwd : String)
deriving DecidableEq, Repr

/-- Python exceptions that can escape the hook.  The only one reachable
in `run_doxygen` is `FileNotFoundError` for the named executable. -/
inductive PyError where
  | fileNotFoundError (filename : String)
deriving DecidableEq, Repr

/-- The slice of the Sphinx application object read by `run_doxygen`:
only `app.srcdir`, the documentation source root. -/
structure App where
  srcdir : String
deriving DecidableEq, Repr

/-- The ambient environment: which paths exist on disk
(`os.path.exists`) and what spawning a given argv in a given working
directory does (`subprocess.run`). -/
structure Env where
  pathExists : String → Bool
  spawn : List String → String → SpawnResult

/-- Shallow embedding of `run_doxygen(app)` (lines 51-65 of `conf.py`).
Returns the emitted event trace and `Except.ok ()` when the function
returns normally, or `Except.error` when a Python exception escapes.

```python
def run_doxygen(app):
    doxygen_config = os.path.join(app.srcdir, '..', 'Doxyfile')
    if os.path.exists(doxygen_config):
        print("Running Doxygen...")
        result = subprocess.run(['doxygen', doxygen_config],
                              cwd=app.srcdir,
                              capture_output=True,
                              text=True)
        if result.returncode != 0:
            print(f"Doxygen warning/error output:\n" + result.stderr)
        print("Doxygen completed")
    else:
        print(f"Warning: Doxyfile not found at " + doxygen_config)
```
(The two f-strings are shown as concatenations; they interpolate
`result.stderr` and `doxygen_config` respectively.) -/
def run_doxygen (env : Env) (app : App) : List Event × Except PyError Unit :=
  let doxygen_config := doxygen_config_path app.srcdir
  if env.pathExists doxygen_config then
    let argv := ["doxygen", doxygen_config]
    match env.spawn argv app.srcdir with
    | SpawnResult.notFound =>
        ([Event.printed "Running Doxygen...", Event.spawned argv app.srcdir],
         Except.error (PyError.fileNotFoundError "doxygen"))
    | SpawnResult.completed result =>
        (([Event.printed "Running Doxygen...", Event.spawned argv app.srcdir]
           ++ (if result.returncode ≠ 0
               then [Event.printed ("Doxygen warning/error output:\n" ++ result.stderr)]
               else []))
          ++ [Event.printed "Doxygen completed"],
         Except.ok ())
  else
    ([Event.printed ("Warning: Doxyfile not found at " ++ doxygen_config)],
     Except.ok ())

/-- Values occurring in the option dictionaries of `conf.py`: booleans,
strings and integers. -/
inductive OptionValue where
  | boolVal (b : Bool)
  | strVal (s : String)
  | intVal (n : Int)
deriving DecidableEq, Repr

/-- The module-level build configuration of `conf.py` (lines 8-48):
project metadata, extension list, path lists, theme settings and the
Breathe mapping. -/
structure BuildConfiguration where
  project : String
  copyright : String
  author : String
  release : String
  version : String
  extensions : List String
  templates_path : List String
  exclude_patterns : List String
  html_theme : String
  html_static_path : List String
  html_logo : String
  html_favicon : String
  html_theme_options : List (String × OptionValue)
  breathe_projects : List (String × String)
  breathe_default_project : String
deriving DecidableEq, Repr

/-- The configuration values assigned at module load, copied from
`conf.py` lines 8-48. -/
def initialBuildConfiguration : BuildConfiguration :=
  { project := "Citrus Engine"
    copyright := "2024, Citrus Engine Contributors"
    author := "Citrus Engine Contributors"
    release := "0.0.1"
    version := "0.0.1"
    extensions := ["breathe", "sphinx.ext.autodoc", "sphinx.ext.intersphinx",
                   "sphinx.ext.todo", "sphinx.ext.viewcode"]
    templates_path := ["_templates"]
    exclude_patterns := ["_build", "_doxygen", "Thumbs.db", ".DS_Store"]
    html_theme := "sphinx_rtd_theme"
    html_static_path := ["_static"]
    html_logo := "../assets/branding/citrus-engine-logo.svg"
    html_favicon := "../assets/branding/citrus-engine-logo.svg"
    html_theme_options :=
      [("logo_only", OptionValue.boolVal false),
       ("prev_next_buttons_location", OptionValue.strVal "bottom"),
       ("style_external_links", OptionValue.boolVal false),
       ("style_nav_header_background", OptionValue.strVal "#ff8c00"),
       ("collapse_navigation", OptionValue.boolVal false),
       ("sticky_navigation", OptionValue.boolVal true),
       ("navigation_depth", OptionValue.intVal 4),
       ("includehidden", OptionValue.boolVal true),
       ("titles_only", OptionValue.boolVal false)]
    breathe_projects := [("CitrusEngine", "_doxygen/xml")]
    breathe_default_project := "CitrusEngine" }

/-- The module's run-time state: the configuration constructed at load
time, and the build log accumulated so far. -/
structure ModuleState where
  config : BuildConfiguration
  log : List Event
deriving DecidableEq, Repr

/-- `run_doxygen` acting on the module state: its body never references
any configuration global, so its whole effect on module state is to
append its emitted events to the log; the `Except` value records whether
an exception escapes. -/
def run_doxygen_st (env : Env) (app : App) (st : ModuleState) :
    ModuleState × Except PyError Unit :=
  let res := run_doxygen env app
  ({ st with log := st.log ++ res.1 }, res.2)

/-- The Sphinx application object as seen by `setup`: its source root
and the list of (event, callback) registrations made via `app.connect`.
The only callback in the module is `run_doxygen`, so a registration is
recorded by its event name. -/
structure SphinxApp where
  srcdir : String
  listeners : List String
deriving DecidableEq, Repr

/-- Shallow embedding of `setup(app)` (lines 67-68 of `conf.py`):
`app.connect('builder-inited', run_doxygen)`.  The module state is
threaded through untouched, since the body reads and writes no module
global. -/
def setup (app : SphinxApp) (st : ModuleState) : SphinxApp × ModuleState :=
  ({ app with listeners := app.listeners ++ ["builder-inited"] }, st)

/-- True exactly on subprocess-spawn events. -/
def isSpawnEvent : Event → Bool
  | Event.spawned _ _ => true
  | _ => false

/-- True exactly on the log line produced by the non-zero-exit branch
(line 62 of `conf.py`). -/
def isToolFailureLine : Event → Bool
  | Event.printed s => s.startsWith "Doxygen warning/error output:"
  | _ => false

/-- The three terminal outcomes of the hook named by the specification,
plus the raising outcome, recovered from the hook's observable trace:
an escaping exception is `raised`; a trace with no spawn attempt is
`skip`; a spawn whose trace carries the stderr warning line is
`toolFailure`; otherwise `success`. -/
inductive Outcome where
  | skip
  | success
  | toolFailure
  | raised
deriving DecidableEq, Repr

/-- Classification of one hook run from its observable trace and
exception status. -/
def classify (res : List Event × Except PyError Unit) : Outcome :=
  match res.2 with
  | Except.error _ => Outcome.raised
  | Except.ok _ =>
    if res.1.any isSpawnEvent then
      if res.1.any isToolFailureLine then Outcome.toolFailure
      else Outcome.success
    else Outcome.skip

/-- Two spawn results that agree on everything the hook can observe
except the captured standard-output text. -/
def sameExceptStdout : SpawnResult → SpawnResult → Prop
  | SpawnResult.notFound, SpawnResult.notFound => True
  | SpawnResult.completed r, SpawnResult.completed r2 =>
      r.returncode = r2.returncode ∧ r.stderr = r2.stderr
  | _, _ => False

/-! ## Helper lemmas -/

/-- A line starting with the stderr-warning header is longer than any
string shorter than the header, hence distinct from it. -/
theorem warn_header_ne_of_short (s t : String)
    (ht : t.length < ("Doxygen warning/error output:\n").length) :
    "Doxygen warning/error output:\n" ++ s ≠ t := by
  intro he
  have hl := congrArg String.length he
  rw [String.length_append] at hl
  omega

/-! ## Claim theorems -/

/-- C1: for every build root whose parent directory contains no
Doxyfile, `run_doxygen` completes without raising, spawns no subprocess,
and emits exactly one warning line, which contains the resolved
configuration-file path. -/
theorem run_doxygen_missing_config (env : Env) (app : App)
    (h : env.pathExists (doxygen_config_path app.srcdir) = false) :
    run_doxygen env app =
      ([Event.printed ("Warning: Doxyfile not found at " ++ doxygen_config_path app.srcdir)],
       Except.ok ()) := by
  simp [run_doxygen, h]

/-- C1 witness: concrete run with an empty filesystem. -/
theorem run_doxygen_missing_config_witness :
    run_doxygen ⟨fun _ => false, fun _ _ => SpawnResult.notFound⟩ ⟨"/docs"⟩ =
      ([Event.printed ("Warning: Doxyfile not found at " ++ doxygen_config_path "/docs")],
       Except.ok ()) :=
  run_doxygen_missing_config ⟨fun _ => false, fun _ _ => SpawnResult.notFound⟩ ⟨"/docs"⟩ rfl

/-- C2 counterexample: when the Doxyfile exists but the `doxygen`
executable cannot be located, the `FileNotFoundError` raised inside
`subprocess.run` escapes `run_doxygen` uncaught, and the only log line
written before the raise is the start notice — no labeled, actionable
error message is emitted, contradicting the claim that no error
propagates past the hook boundary. -/
theorem run_doxygen_tool_not_found_counterexample :
    run_doxygen ⟨fun _ => true, fun _ _ => SpawnResult.notFound⟩ ⟨"/docs"⟩ =
      ([Event.printed "Running Doxygen...",
        Event.spawned ["doxygen", doxygen_config_path "/docs"] "/docs"],
       Except.error (PyError.fileNotFoundError "doxygen")) := by
  simp [run_doxygen]

/-- C2 amended: whenever the configuration file exists and the
executable cannot be located, `run_doxygen` propagates the
`FileNotFoundError` out of the hook, having printed only the start
notice and attempted the spawn; it emits no labeled error line for this
case. -/
theorem run_doxygen_tool_not_found_raises (env : Env) (app : App)
    (h : env.pathExists (doxygen_config_path app.srcdir) = true)
    (hsp : env.spawn ["doxygen", doxygen_config_path app.srcdir] app.srcdir
             = SpawnResult.notFound) :
    run_doxygen env app =
      ([Event.printed "Running Doxygen...",
        Event.spawned ["doxygen", doxygen_config_path app.srcdir] app.srcdir],
       Except.error (PyError.fileNotFoundError "doxygen")) := by
  simp [run_doxygen, h, hsp]

/-- C2 amended witness: concrete run where the executable is absent. -/
theorem run_doxygen_tool_not_found_raises_witness :
    run_doxygen ⟨fun _ => true, fun _ _ => SpawnResult.notFound⟩ ⟨"/opt/docs"⟩ =
      ([Event.printed "Running Doxygen...",
        Event.spawned ["doxygen", doxygen_config_path "/opt/docs"] "/opt/docs"],
       Except.error (PyError.fileNotFoundError "doxygen")) :=
  run_doxygen_tool_not_found_raises ⟨fun _ => true, fun _ _ => SpawnResult.notFound⟩
    ⟨"/opt/docs"⟩ rfl rfl

/-- C3: whenever the configuration file exists, `run_doxygen` attempts
exactly one subprocess spawn, whose argv is the tool name followed by
the configuration-file path as its sole argument, and whose working
directory is `app.srcdir`. -/
theorem run_doxygen_invocation (env : Env) (app : App)
    (h : env.pathExists (doxygen_config_path app.srcdir) = true) :
    (run_doxygen env app).1.filter isSpawnEvent =
      [Event.spawned ["doxygen", doxygen_config_path app.srcdir] app.srcdir] := by
  cases hsp : env.spawn ["doxygen", doxygen_config_path app.srcdir] app.srcdir with
  | notFound => simp [run_doxygen, h, hsp, isSpawnEvent]
  | completed r =>
      by_cases hr : r.returncode = 0 <;>
        simp [run_doxygen, h, hsp, hr, isSpawnEvent]

/-- C3 witness: concrete run with an existing Doxyfile and a succeeding
tool. -/
theorem run_doxygen_invocation_witness :
    (run_doxygen ⟨fun _ => true, fun _ _ => SpawnResult.completed ⟨0, "", ""⟩⟩
        ⟨"/docs"⟩).1.filter isSpawnEvent =
      [Event.spawned ["doxygen", doxygen_config_path "/docs"] "/docs"] :=
  run_doxygen_invocation ⟨fun _ => true, fun _ _ => SpawnResult.completed ⟨0, "", ""⟩⟩
    ⟨"/docs"⟩ rfl

/-- C4 counterexample: with an existing Doxyfile and a tool exiting with
status 1, the completion notice is still printed, so the notice is not
emitted only on zero exit status as the claim states. -/
theorem run_doxygen_completed_despite_failure :
    (1 : Int) ≠ 0 ∧
    Event.printed "Doxygen completed" ∈
      (run_doxygen ⟨fun _ => true, fun _ _ => SpawnResult.completed ⟨1, "", "boom"⟩⟩
        ⟨"/docs"⟩).1 := by
  refine ⟨by decide, ?_⟩
  simp [run_doxygen]

/-- C4 amended: when the configuration file exists and the subprocess
returns, `run_doxygen` emits the completion notice regardless of exit
status; the stderr-warning line is emitted if and only if the exit
status is non-zero, so the failure outcome remains distinguishable from
the success outcome. -/
theorem run_doxygen_completion_notice (env : Env) (app : App) (r : CompletedProcess)
    (h : env.pathExists (doxygen_config_path app.srcdir) = true)
    (hsp : env.spawn ["doxygen", doxygen_config_path app.srcdir] app.srcdir
             = SpawnResult.completed r) :
    Event.printed "Doxygen completed" ∈ (run_doxygen env app).1 ∧
    (Event.printed ("Doxygen warning/error output:\n" ++ r.stderr)
        ∈ (run_doxygen env app).1 ↔ r.returncode ≠ 0) := by
  by_cases hr : r.returncode = 0
  · have htrace : (run_doxygen env app).1 =
        [Event.printed "Running Doxygen...",
         Event.spawned ["doxygen", doxygen_config_path app.srcdir] app.srcdir,
         Event.printed "Doxygen completed"] := by
      simp [run_doxygen, h, hsp, hr]
    rw [htrace]
    refine ⟨by simp, fun hmem => ?_, fun hne => absurd hr hne⟩
    rcases List.mem_cons.mp hmem with h1 | hmem1
    · exact (warn_header_ne_of_short r.stderr "Running Doxygen..." (by decide)
        (Event.printed.inj h1)).elim
    rcases List.mem_cons.mp hmem1 with h2 | hmem2
    · exact Event.noConfusion h2
    rcases List.mem_cons.mp hmem2 with h3 | hmem3
    · exact (warn_header_ne_of_short r.stderr "Doxygen completed" (by decide)
        (Event.printed.inj h3)).elim
    · exact absurd hmem3 (List.not_mem_nil _)
  · simp [run_doxygen, h, hsp, hr]

/-- C4 amended witness: concrete failing run exhibiting both the warning
line and the completion notice. -/
theorem run_doxygen_completion_notice_witness :
    Event.printed "Doxygen completed" ∈
      (run_doxygen ⟨fun _ => true, fun _ _ => SpawnResult.completed ⟨1, "", "boom"⟩⟩
        ⟨"/docs"⟩).1 ∧
    (Event.printed ("Doxygen warning/error output:\n" ++ ("boom" : String)) ∈
      (run_doxygen ⟨fun _ => true, fun _ _ => SpawnResult.completed ⟨1, "", "boom"⟩⟩
        ⟨"/docs"⟩).1 ↔ (1 : Int) ≠ 0) :=
  run_doxygen_completion_notice
    ⟨fun _ => true, fun _ _ => SpawnResult.completed ⟨1, "", "boom"⟩⟩ ⟨"/docs"⟩
    ⟨1, "", "boom"⟩ rfl rfl

/-- C5: when the tool exits with a non-zero status, `run_doxygen`
returns normally (no exception escapes) and the captured standard-error
text appears in the emitted log output, inside the warning line. -/
theorem run_doxygen_nonzero_lenient (env : Env) (app : App) (r : CompletedProcess)
    (h : env.pathExists (doxygen_config_path app.srcdir) = true)
    (hsp : env.spawn ["doxygen", doxygen_config_path app.srcdir] app.srcdir
             = SpawnResult.completed r)
    (hr : r.returncode ≠ 0) :
    (run_doxygen env app).2 = Except.ok () ∧
    Event.printed ("Doxygen warning/error output:\n" ++ r.stderr)
      ∈ (run_doxygen env app).1 := by
  simp [run_doxygen, h, hsp, hr]

/-- C5 witness: concrete run with exit status 2 and stderr text. -/
theorem run_doxygen_nonzero_lenient_witness :
    (run_doxygen ⟨fun _ => true, fun _ _ => SpawnResult.completed ⟨2, "", "bad input"⟩⟩
        ⟨"/docs"⟩).2 = Except.ok () ∧
    Event.printed ("Doxygen warning/error output:\n" ++ ("bad input" : String)) ∈
      (run_doxygen ⟨fun _ => true, fun _ _ => SpawnResult.completed ⟨2, "", "bad input"⟩⟩
        ⟨"/docs"⟩).1 :=
  run_doxygen_nonzero_lenient
    ⟨fun _ => true, fun _ _ => SpawnResult.completed ⟨2, "", "bad input"⟩⟩ ⟨"/docs"⟩
    ⟨2, "", "bad input"⟩ rfl rfl (by decide)

/-- C6: for every build root that is non-empty and does not end with a
path separator, the configuration path computed at line 53,
`os.path.join(app.srcdir, '..', 'Doxyfile')`, is the file named
`Doxyfile` in the parent directory of the build root. -/
theorem doxygen_config_path_resolution (srcdir : String)
    (h1 : srcdir ≠ "") (h2 : srcdir.data.getLast? ≠ some '/') :
    doxygen_config_path srcdir = srcdir ++ "/../Doxyfile" := by
  have hnil : srcdir.data ≠ [] := by
    intro hd
    exact h1 (String.ext (hd.trans rfl))
  have e1 : ospath_join2 srcdir ".." = srcdir ++ "/" ++ ".." := by
    unfold ospath_join2
    rw [if_neg (by decide), if_neg (by simp [hnil, h2])]
  have hdata : (srcdir ++ "/" ++ "..").data = (srcdir.data ++ ['/', '.']) ++ ['.'] := by
    simp [String.data_append]
  have e2 : ospath_join2 (srcdir ++ "/" ++ "..") "Doxyfile"
      = (srcdir ++ "/" ++ "..") ++ "/" ++ "Doxyfile" := by
    unfold ospath_join2
    rw [if_neg (by decide), if_neg ?_]
    rw [hdata]
    simp [List.getLast?_concat]
  unfold doxygen_config_path
  rw [e1, e2]
  simp only [String.append_assoc]
  rw [show ("/" : String) ++ (".." ++ ("/" ++ "Doxyfile")) = "/../Doxyfile" from rfl]

/-- C6 witness: concrete resolution for the build root `/repo/docs`. -/
theorem doxygen_config_path_resolution_witness :
    doxygen_config_path "/repo/docs" = "/repo/docs" ++ "/../Doxyfile" :=
  doxygen_config_path_resolution "/repo/docs" (by decide) (by decide)

/-- C7: running the hook twice with the same environment and build root
(same filesystem answers, same deterministic tool behavior) yields the
same outcome classification — skip, success, tool failure, or raise —
for each of the two runs, where each run's classification is computed
from the events that run appended to the log together with its
exception status. -/
theorem run_doxygen_repeat_same_outcome (env : Env) (app : App) (st : ModuleState) :
    classify (((run_doxygen_st env app st).1.log).drop st.log.length,
              (run_doxygen_st env app st).2) =
    classify (((run_doxygen_st env app (run_doxygen_st env app st).1).1.log).drop
                (run_doxygen_st env app st).1.log.length,
              (run_doxygen_st env app (run_doxygen_st env app st).1).2) := by
  simp only [run_doxygen_st]
  rw [List.drop_left, List.drop_left]

/-- C8: the build configuration constructed at module load is left
unchanged by both `run_doxygen` and `setup`; a whole build run starting
from the loaded configuration ends with that same configuration. -/
theorem build_configuration_immutable (env : Env) (sapp : SphinxApp)
    (app : App) (st : ModuleState) :
    (run_doxygen_st env app st).1.config = st.config ∧
    (setup sapp st).2.config = st.config ∧
    (run_doxygen_st env app
        { config := initialBuildConfiguration, log := [] }).1.config
      = initialBuildConfiguration :=
  ⟨rfl, rfl, rfl⟩

/-- C9: the captured standard-output stream is never surfaced — two
environments whose spawns differ only in captured stdout produce
identical hook behavior — and on zero exit status the trace consists of
the start notice, the spawn, and the completion notice only, so stderr
is surfaced only on non-zero exit. -/
theorem run_doxygen_stdout_not_surfaced (env env2 : Env) (app : App)
    (hfs : ∀ p, env.pathExists p = env2.pathExists p)
    (hsp : ∀ a c, sameExceptStdout (env.spawn a c) (env2.spawn a c)) :
    run_doxygen env app = run_doxygen env2 app ∧
    (∀ r, env.pathExists (doxygen_config_path app.srcdir) = true →
      env.spawn ["doxygen", doxygen_config_path app.srcdir] app.srcdir
          = SpawnResult.completed r →
      r.returncode = 0 →
      (run_doxygen env app).1 =
        [Event.printed "Running Doxygen...",
         Event.spawned ["doxygen", doxygen_config_path app.srcdir] app.srcdir,
         Event.printed "Doxygen completed"]) := by
  constructor
  · have hp := hfs (doxygen_config_path app.srcdir)
    have hs := hsp ["doxygen", doxygen_config_path app.srcdir] app.srcdir
    by_cases h : env.pathExists (doxygen_config_path app.srcdir)
    · have h2 : env2.pathExists (doxygen_config_path app.srcdir) = true := by
        rw [← hp]; exact h
      cases he : env.spawn ["doxygen", doxygen_config_path app.srcdir] app.srcdir with
      | notFound =>
          cases he2 : env2.spawn ["doxygen", doxygen_config_path app.srcdir] app.srcdir with
          | notFound => simp [run_doxygen, h, h2, he, he2]
          | completed r2 =>
              rw [he, he2] at hs
              simp [sameExceptStdout] at hs
      | completed r =>
          cases he2 : env2.spawn ["doxygen", doxygen_config_path app.srcdir] app.srcdir with
          | notFound =>
              rw [he, he2] at hs
              simp [sameExceptStdout] at hs
          | completed r2 =>
              rw [he, he2] at hs
              obtain ⟨hrc, hse⟩ := hs
              simp [run_doxygen, h, h2, he, he2, hrc, hse]
    · have hb : env.pathExists (doxygen_config_path app.srcdir) = false := by
        simpa using h
      have h2 : env2.pathExists (doxygen_config_path app.srcdir) = false := by
        rw [← hp]; exact hb
      simp [run_doxygen, hb, h2]
  · intro r hpath hspawn hz
    simp [run_doxygen, hpath, hspawn, hz]

/-- C9 witness: two runs identical except for the captured stdout text
produce the same trace and result. -/
theorem run_doxygen_stdout_not_surfaced_witness :
    run_doxygen ⟨fun _ => true, fun _ _ => SpawnResult.completed ⟨0, "alpha", "err"⟩⟩
        ⟨"/docs"⟩
      = run_doxygen ⟨fun _ => true, fun _ _ => SpawnResult.completed ⟨0, "beta", "err"⟩⟩
          ⟨"/docs"⟩ :=
  (run_doxygen_stdout_not_surfaced
    ⟨fun _ => true, fun _ _ => SpawnResult.completed ⟨0, "alpha", "err"⟩⟩
    ⟨fun _ => true, fun _ _ => SpawnResult.completed ⟨0, "beta", "err"⟩⟩
    ⟨"/docs"⟩ (fun _ => rfl) (fun _ _ => ⟨rfl, rfl⟩)).1

/-- C10: whenever the configuration file exists and the subprocess call
returns a completed process, the emitted trace is exactly the start
notice, the spawn, the stderr warning precisely when the exit status is
non-zero, and then the completion notice — so the completion notice is
printed unconditionally, and on non-zero exit both lines appear. -/
theorem run_doxygen_trace_when_tool_runs (env : Env) (app : App) (r : CompletedProcess)
    (h : env.pathExists (doxygen_config_path app.srcdir) = true)
    (hsp : env.spawn ["doxygen", doxygen_config_path app.srcdir] app.srcdir
             = SpawnResult.completed r) :
    (run_doxygen env app).1 =
      ([Event.printed "Running Doxygen...",
        Event.spawned ["doxygen", doxygen_config_path app.srcdir] app.srcdir]
       ++ (if r.returncode ≠ 0
           then [Event.printed ("Doxygen warning/error output:\n" ++ r.stderr)]
           else []))
      ++ [Event.printed "Doxygen completed"] := by
  simp [run_doxygen, h, hsp]

/-- C10 witness: concrete failing run whose full trace carries both the
warning and the completion notice. -/
theorem run_doxygen_trace_when_tool_runs_witness :
    (run_doxygen ⟨fun _ => true, fun _ _ => SpawnResult.completed ⟨3, "xml", "oops"⟩⟩
        ⟨"/docs"⟩).1 =
      ([Event.printed "Running Doxygen...",
        Event.spawned ["doxygen", doxygen_config_path "/docs"] "/docs"]
       ++ (if (3 : Int) ≠ 0
           then [Event.printed ("Doxygen warning/error output:\n" ++ ("oops" : String))]
           else []))
      ++ [Event.printed "Doxygen completed"] :=
  run_doxygen_trace_when_tool_runs
    ⟨fun _ => true, fun _ _ => SpawnResult.completed ⟨3, "xml", "oops"⟩⟩ ⟨"/docs"⟩
    ⟨3, "xml", "oops"⟩ rfl rfl

end CitrusDocs
